import Mathlib

/-!
Verification development for the sticker-label generator in src/inst.py.

The Python source is shallowly embedded below.  Pure helpers
(normalize_column_name, find_column, parse_line_location, the QR payload
construction, the per-row extraction of lines 296-303, the row composition
of lines 341-356 and 394-403, and the control flow of
generate_sticker_labels) become executable Lean functions.  Pandas cells
are modelled by the sum type PCell (a string cell or a float NaN); the
Python dict built in find_column (insertion ordered, last duplicate key
wins) is modelled by an association list with explicit insert semantics.
Definitions suffixed with Match or named with Spec follow the wording of
the specification and are compared against the source-derived functions.
-/

-- ## Normalizer (src/inst.py lines 28-30)
-- re.sub removes every character outside a-zA-Z0-9, then .lower().
-- Char.isAlpha / Char.isDigit / Char.toLower are the ASCII operations,
-- matching the ASCII character class of the regex.
def normalize_column_name (col_name : String) : String :=
  String.mk (((col_name.data).filter (fun c => c.isAlpha || c.isDigit)).map Char.toLower)

-- ## Substring containment (the Python operator a in b on str)
def strStartsWithChars : List Char → List Char → Bool
  | _, [] => true
  | [], _ :: _ => false
  | c :: cs, d :: ds => c == d && strStartsWithChars cs ds

def charsHasSub : List Char → List Char → Bool
  | [], sub => sub.isEmpty
  | c :: cs, sub => strStartsWithChars (c :: cs) sub || charsHasSub cs sub

-- strHasSub hay sub is the Python expression sub in hay.
def strHasSub (hay sub : String) : Bool :=
  charsHasSub hay.data sub.data

-- ## The dict comprehension of line 34:
-- normalized_df_columns = dict comprehension over df.columns.  A Python dict
-- keeps first-insertion order for keys and overwrites the value when a key
-- repeats, so a later column with the same normalized form replaces the
-- earlier value while keeping its position.
def insertDict (d : List (String × String)) (k v : String) : List (String × String) :=
  if d.any (fun p => p.1 == k) then
    d.map (fun p => if p.1 == k then (k, v) else p)
  else
    d ++ [(k, v)]

def buildDict (cols : List String) : List (String × String) :=
  cols.foldl (fun d c => insertDict d (normalize_column_name c) c) []

def dictGet (d : List (String × String)) (k : String) : Option String :=
  (d.find? (fun p => p.1 == k)).map (fun p => p.2)

-- ## find_column (src/inst.py lines 32-52)
-- Three sequential loops with early return: exact normalized lookup,
-- then partial (substring either way) match, then the line-location
-- keyword scan.  Note that the keyword scan is part of find_column itself,
-- so it runs for EVERY logical field whose first two loops find nothing.
def find_column (dfColumns : List String) (possible_names : List String) : Option String :=
  let normalized_df_columns := buildDict dfColumns
  let normalized_possible_names := possible_names.map normalize_column_name
  match normalized_possible_names.findSome? (fun n => dictGet normalized_df_columns n) with
  | some c => some c
  | none =>
    match normalized_possible_names.findSome? (fun n =>
        normalized_df_columns.findSome? (fun p =>
          if strHasSub p.1 n || strHasSub n p.1 then some p.2 else none)) with
    | some c => some c
    | none =>
      normalized_df_columns.findSome? (fun p =>
        if (strHasSub p.1 "line" && strHasSub p.1 "location") || strHasSub p.1 "lineloc"
        then some p.2 else none)

-- ## The three matching tiers, stated from the wording of the spec
-- (section 4.2), for comparison against find_column.
def exactTierMatch (dfColumns possible_names : List String) : Option String :=
  possible_names.findSome? (fun a =>
    dfColumns.find? (fun c => normalize_column_name c == normalize_column_name a))

def substringTierMatch (dfColumns possible_names : List String) : Option String :=
  possible_names.findSome? (fun a =>
    dfColumns.findSome? (fun c =>
      if strHasSub (normalize_column_name c) (normalize_column_name a) ||
         strHasSub (normalize_column_name a) (normalize_column_name c)
      then some c else none))

def keywordTierMatch (dfColumns : List String) : Option String :=
  dfColumns.findSome? (fun c =>
    if (strHasSub (normalize_column_name c) "line" &&
        strHasSub (normalize_column_name c) "location") ||
       strHasSub (normalize_column_name c) "lineloc"
    then some c else none)

-- ## column_mappings (src/inst.py lines 155-181), transcribed verbatim
def column_mappings_ASSLY : List String :=
  ["assly", "ASSY NAME", "Assy Name", "assy name", "assyname",
   "assy_name", "Assy_name", "Assembly", "Assembly Name", "ASSEMBLY", "Assembly_Name"]

def column_mappings_part_no : List String :=
  ["PARTNO", "PARTNO.", "Part No", "Part Number", "PartNo",
   "partnumber", "part no", "partnum", "PART", "part", "Product Code",
   "Item Number", "Item ID", "Item No", "item", "Item"]

def column_mappings_description : List String :=
  ["DESCRIPTION", "Description", "Desc", "Part Description",
   "ItemDescription", "item description", "Product Description",
   "Item Description", "NAME", "Item Name", "Product Name"]

def column_mappings_Part_per_veh : List String :=
  ["QYT", "QTY / VEH", "Qty/Veh", "Qty Bin", "Quantity per Bin",
   "qty bin", "qtybin", "quantity bin", "BIN QTY", "BINQTY",
   "QTY_BIN", "QTY_PER_BIN", "Bin Quantity", "BIN"]

def column_mappings_Type : List String :=
  ["TYPE", "type", "Type", "tyPe", "Type name"]

def column_mappings_line_location : List String :=
  ["LINE LOCATION", "Line Location", "line location", "LINELOCATION",
   "linelocation", "Line_Location", "line_location", "LINE_LOCATION",
   "LineLocation", "line_loc", "lineloc", "LINELOC", "Line Loc"]

def column_mappings_part_status : List String :=
  ["PART STATUS", "Part Status", "part status", "PARTSTATUS",
   "partstatus", "Part_Status", "part_status", "PART_STATUS",
   "PartStatus", "STATUS", "Status", "status", "Item Status",
   "Component Status", "Part State", "State"]

def column_mappings_bin_type : List String :=
  ["BIN TYPE", "Bin Type", "bin type", "BINTYPE", "bintype",
   "Bin_Type", "bin_type", "BIN_TYPE", "BinType", "Container Type",
   "CONTAINER TYPE", "Container_Type", "container_type", "CONTAINER_TYPE",
   "ContainerType", "CONTAINER", "Container", "container", "BIN", "Bin", "bin",
   "Package Type", "PACKAGE TYPE", "Package_Type", "package_type", "PACKAGE_TYPE",
   "PackageType", "Storage Type", "STORAGE TYPE", "Storage_Type", "storage_type"]

def column_mappings : List (String × List String) :=
  [("ASSLY", column_mappings_ASSLY),
   ("part_no", column_mappings_part_no),
   ("description", column_mappings_description),
   ("Part_per_veh", column_mappings_Part_per_veh),
   ("Type", column_mappings_Type),
   ("line_location", column_mappings_line_location),
   ("part_status", column_mappings_part_status),
   ("bin_type", column_mappings_bin_type)]

-- ## found_columns (src/inst.py lines 184-188)
-- Python keeps the key only when find_column returned a truthy value, so a
-- column literally named by the empty string would count as not found.
def found_columns (dfColumns : List String) : List (String × String) :=
  column_mappings.foldl (fun acc kp =>
    match find_column dfColumns kp.2 with
    | some c => if c == "" then acc else acc ++ [(kp.1, c)]
    | none => acc) []

def lookupFound (fc : List (String × String)) (key : String) : Option String :=
  (fc.find? (fun p => p.1 == key)).map (fun p => p.2)

def required_columns : List String :=
  ["ASSLY", "part_no", "description"]

-- ## Cells and rows.  A pandas cell is either an ordinary value (already
-- coerced to its string form by str(), which performs no trimming) or a
-- float NaN, for which Python str() yields the text nan and pd.notna is
-- false.
inductive PCell where
  | s (v : String)
  | nan
deriving DecidableEq

def cellStr : PCell → String
  | PCell.s v => v
  | PCell.nan => "nan"

def notna : PCell → Bool
  | PCell.s _ => true
  | PCell.nan => false

abbrev Row : Type := List (String × PCell)

def rowGet (row : Row) (col : String) : PCell :=
  ((List.find? (fun p => p.1 == col) row).map (fun p => p.2)).getD PCell.nan

-- ## LabelData: the per-row extraction of src/inst.py lines 296-303.
structure LabelData where
  ASSLY : String
  part_no : String
  desc : String
  Part_per_veh : String
  Type_ : String
  line_location_raw : String
  part_status : String
  bin_type : String
deriving DecidableEq

-- Required pattern (lines 296-298):
-- str(row[found_columns[key]]) if key in found_columns else "N/A"
def requiredField (fc : List (String × String)) (row : Row) (key : String) : String :=
  match lookupFound fc key with
  | some col => cellStr (rowGet row col)
  | none => "N/A"

-- Optional pattern (lines 299-303):
-- str(row[found_columns[key]]) if key in found_columns and pd.notna(cell) else ""
def optionalField (fc : List (String × String)) (row : Row) (key : String) : String :=
  match lookupFound fc key with
  | some col => if notna (rowGet row col) then cellStr (rowGet row col) else ""
  | none => ""

def extractRow (fc : List (String × String)) (row : Row) : LabelData :=
  { ASSLY := requiredField fc row "ASSLY"
    part_no := requiredField fc row "part_no"
    desc := requiredField fc row "description"
    Part_per_veh := optionalField fc row "Part_per_veh"
    Type_ := optionalField fc row "Type"
    line_location_raw := optionalField fc row "line_location"
    part_status := optionalField fc row "part_status"
    bin_type := optionalField fc row "bin_type" }

-- A string has no leading or trailing whitespace (the property the spec
-- asserts of all stored LabelData values).
def noOuterWhitespace (s : String) : Bool :=
  (match s.data.head? with
   | some c => !c.isWhitespace
   | none => true) &&
  (match s.data.getLast? with
   | some c => !c.isWhitespace
   | none => true)

-- ## LocationSplitter (src/inst.py lines 140-147)
-- Python str.split with the one-character separator underscore.
def splitUnderscoreChars : List Char → List (List Char)
  | [] => [[]]
  | c :: cs =>
    let r := splitUnderscoreChars cs
    if c == '_' then [] :: r
    else
      match r with
      | [] => [[c]]
      | h :: t => (c :: h) :: t

def pySplitUnderscore (s : String) : List String :=
  (splitUnderscoreChars s.data).map (fun l => String.mk l)

-- The callers always pass a str, so the pd.isna guard of line 142 is the
-- emptiness test of Python truthiness on strings.
def parse_line_location (location_string : String) : List String :=
  if location_string == "" then ["", "", "", ""]
  else
    let parts := pySplitUnderscore location_string
    (parts.take 4 ++ List.replicate (4 - parts.length) "").take 4

-- ## QR payload (src/inst.py lines 307-318)
def build_qr_data (d : LabelData) (today_date : String) : String :=
  let q1 := "ASSLY: " ++ d.ASSLY ++ "\n" ++ "Part No: " ++ d.part_no ++ "\n" ++
            "Description: " ++ d.desc ++ "\n"
  let q2 := if d.Part_per_veh ≠ "" then q1 ++ "QTY/VEH: " ++ d.Part_per_veh ++ "\n" else q1
  let q3 := if d.bin_type ≠ "" then q2 ++ "Bin Type: " ++ d.bin_type ++ "\n" else q2
  let q4 := if d.Type_ ≠ "" then q3 ++ "Type: " ++ d.Type_ ++ "\n" else q3
  let q5 := if d.part_status ≠ "" then q4 ++ "Part Status: " ++ d.part_status ++ "\n" else q4
  let q6 := if d.line_location_raw ≠ "" then
              q5 ++ "Line Location: " ++ d.line_location_raw ++ "\n"
            else q5
  q6 ++ "Date: " ++ today_date

-- Newline-joined rendering of a list of lines.
def joinLines : List String → String
  | [] => ""
  | [a] => a
  | a :: b :: rest => a ++ "\n" ++ joinLines (b :: rest)

-- The payload line list stated from the wording of the spec (section 4.5).
def qrPayloadLines (d : LabelData) (today_date : String) : List String :=
  ["ASSLY: " ++ d.ASSLY, "Part No: " ++ d.part_no, "Description: " ++ d.desc]
  ++ (if d.Part_per_veh ≠ "" then ["QTY/VEH: " ++ d.Part_per_veh] else [])
  ++ (if d.bin_type ≠ "" then ["Bin Type: " ++ d.bin_type] else [])
  ++ (if d.Type_ ≠ "" then ["Type: " ++ d.Type_] else [])
  ++ (if d.part_status ≠ "" then ["Part Status: " ++ d.part_status] else [])
  ++ (if d.line_location_raw ≠ "" then ["Line Location: " ++ d.line_location_raw] else [])
  ++ ["Date: " ++ today_date]

-- ## Label cells.  A table cell of the composed label is a bare string, a
-- Paragraph (its markup text together with the fontName of its style), or
-- an image flowable.
inductive TCell where
  | str (s : String)
  | para (text : String) (fontName : String)
  | image
deriving DecidableEq

-- ReportLab inline markup for the text shapes this program produces: a
-- text wholly wrapped in b tags renders as one bold run, any other text
-- renders as one run whose weight comes from the style font.
def textIsBoldWrapped (s : String) : Bool :=
  strStartsWithChars s.data ("<b>".data) &&
  strStartsWithChars s.data.reverse ("</b>".data.reverse)

def paraRuns (text fontName : String) : List (String × Bool) :=
  if textIsBoldWrapped text then
    [(String.mk ((text.data.drop 3).take (text.data.length - 7)), true)]
  else
    [(text, fontName == "Helvetica-Bold")]

def cellRuns : TCell → List (String × Bool)
  | TCell.str s => [(s, false)]
  | TCell.para t f => paraRuns t f
  | TCell.image => []

-- ## Identity and part rows (src/inst.py lines 341-346).  ASSLY_style has
-- fontName Helvetica (line 227); Part_style and Part_status_style are
-- Helvetica-Bold (lines 237, 248).
def assly_row (first_box_content : TCell) (ASSLY : String) : List TCell :=
  [first_box_content, TCell.str "ASSLY", TCell.para ASSLY "Helvetica"]

def partno_row (part_no part_status : String) : List TCell :=
  [TCell.str "PART NO",
   TCell.para ("<b>" ++ part_no ++ "</b>") "Helvetica-Bold",
   TCell.para ("<b>" ++ part_status ++ "</b>") "Helvetica-Bold"]

-- The identity-panel formatting rule stated from the wording of the spec
-- (section 4.6 item 1): main portion is all but the last 3 characters,
-- the suffix is the last 3 characters and renders bold.
def identitySplitSpec (s : String) : String × String :=
  (String.mk (s.data.take (s.data.length - 3)), String.mk (s.data.drop (s.data.length - 3)))

def identityRunsClaim (s : String) : List (String × Bool) :=
  [((identitySplitSpec s).1, false), ((identitySplitSpec s).2, true)]

-- ## generate_sticker_labels control flow (src/inst.py lines 149-549)

-- Every name that receives a binding somewhere in the body of
-- generate_sticker_labels: the seven parameters and every assignment
-- target of lines 155-543.  The names col_widths_combined (used line 400)
-- and qty_type_date_table_style (used line 512) are not among them.
def loopDefinedNames : List String :=
  ["df", "line_loc_header_width", "line_loc_box1_width", "line_loc_box2_width",
   "line_loc_box3_width", "line_loc_box4_width", "uploaded_first_box_logo",
   "column_mappings", "found_columns", "key", "possible_names", "found_col",
   "required_columns", "missing_required", "tmp_file", "output_pdf_path",
   "draw_border", "doc", "header_style", "ASSLY_style", "Part_style",
   "Part_status_style", "desc_style", "partper_style", "bin_type_style",
   "Type_style", "date_style", "location_style", "content_width",
   "all_elements", "today_date", "first_box_logo", "logo_width_cm",
   "logo_height_cm", "total_rows", "progress_bar", "index", "row", "elements",
   "ASSLY", "part_no", "desc", "Part_per_veh", "Type", "line_location_raw",
   "part_status", "bin_type", "location_boxes", "qr_data", "qr_image",
   "qr_cell", "ASSLY_row_height", "part_row_height", "desc_row_height",
   "qty_row_height", "type_row_height", "date_row_height",
   "location_row_height", "location_box_1", "location_box_2",
   "location_box_3", "location_box_4", "first_box_content", "assly_row",
   "partno_row", "desc_row", "qty_type_date_data", "location_row",
   "col_widths_assly", "col_widths_partno", "col_widths_standard",
   "col_widths_qty", "col_widths_middle", "col_widths_bottom", "assly_table",
   "partno_table", "desc_table", "qty_type_date_table", "bottom_table",
   "assly_table_style", "partno_table_style", "desc_table_style",
   "qty_table_style", "middle_table_style", "bottom_table_style",
   "pdf_file", "pdf_data", "e"]

inductive GenError where
  | missingRequired (missing : List String)
  | nameError (nm : String)
deriving DecidableEq

inductive Element where
  | table (tag : String) (cells : List (List TCell))
  | pageBreak
deriving DecidableEq

def location_row_cells (boxes : List String) : List TCell :=
  TCell.str "LINE LOCATION" ::
    boxes.map (fun s => if s ≠ "" then TCell.para s "Helvetica" else TCell.str "")

-- One iteration of the row loop (lines 290-528), for a run without an
-- uploaded logo (uploaded_first_box_logo is None, so first_box_content is
-- the empty string, line 342).  The extraction, QR payload, and the three
-- tables of lines 395-397 all succeed; constructing qty_type_date_table at
-- line 400 evaluates the name col_widths_combined, which has no binding in
-- the function body, so Python raises NameError there on every row.
def composeRow (fc : List (String × String)) (row : Row) (today_date : String)
    (hasBreak : Bool) : Except GenError (List Element) :=
  let d := extractRow fc row
  let location_boxes := parse_line_location d.line_location_raw
  let _qr_payload := build_qr_data d today_date
  let qr_cell := TCell.image
  let assly_tbl := Element.table "assly_table" [assly_row (TCell.str "") d.ASSLY]
  let partno_tbl := Element.table "partno_table" [partno_row d.part_no d.part_status]
  let desc_tbl := Element.table "desc_table"
    [[TCell.str "PART DESC", TCell.para d.desc "Helvetica"]]
  if "col_widths_combined" ∈ loopDefinedNames then
    let qty_tbl := Element.table "qty_type_date_table"
      [[TCell.str "QTY/VEH", TCell.para d.Part_per_veh "Helvetica",
        TCell.para d.bin_type "Helvetica", qr_cell],
       [TCell.str "TYPE", TCell.para d.Type_ "Helvetica", TCell.str ""],
       [TCell.str "DATE", TCell.para today_date "Helvetica", TCell.str ""]]
    let bottom_tbl := Element.table "bottom_table" [location_row_cells location_boxes]
    Except.ok ([assly_tbl, partno_tbl, desc_tbl, qty_tbl, bottom_tbl] ++
      (if hasBreak then [Element.pageBreak] else []))
  else
    Except.error (GenError.nameError "col_widths_combined")

-- The row loop: index runs over 0, 1, ...; a PageBreak follows every
-- sticker whose index satisfies index < len(df) - 1 (line 525).
def composeRows (fc : List (String × String)) (today_date : String) (n : Nat) :
    Nat → List Row → Except GenError (List Element)
  | _, [] => Except.ok []
  | i, r :: rs =>
    match composeRow fc r today_date (decide (i < n - 1)) with
    | Except.error e => Except.error e
    | Except.ok es =>
      match composeRows fc today_date n (i + 1) rs with
      | Except.error e => Except.error e
      | Except.ok rest => Except.ok (es ++ rest)

structure DataFrame where
  cols : List String
  rows : List Row

-- The body of generate_sticker_labels.  today_date (datetime.now at line
-- 266) and the timestamped output filename (line 543) are supplied as a
-- parameter and a fixed tag respectively; a missing required column
-- reports the missing list and returns early (lines 190-196); any
-- exception inside the try block is caught at line 545.
def generate_sticker_labels (df : DataFrame) (today_date : String) :
    Except GenError (List Element × String) :=
  let fc := found_columns df.cols
  let missing_required := required_columns.filter (fun c => (lookupFound fc c).isNone)
  if missing_required = [] then
    match composeRows fc today_date df.rows.length 0 df.rows with
    | Except.error e => Except.error e
    | Except.ok elems => Except.ok (elems, "sticker_labels.pdf")
  else
    Except.error (GenError.missingRequired missing_required)

-- The pair actually handed back to the caller: both error paths return
-- the Python tuple (None, None); success returns the bytes and filename.
def genReturn (r : Except GenError (List Element × String)) :
    Option (List Element) × Option String :=
  match r with
  | Except.error _ => (none, none)
  | Except.ok (e, f) => (some e, some f)

-- ## Lemmas about the normalized-column dict of find_column

theorem insertDict_not_mem (d : List (String × String)) (k v : String)
    (h : d.any (fun p => p.1 == k) = false) : insertDict d k v = d ++ [(k, v)] := by
  simp [insertDict, h]

theorem insertDict_mem (d : List (String × String)) (k v : String) (p : String × String)
    (hp : p ∈ insertDict d k v) : p ∈ d ∨ p = (k, v) := by
  unfold insertDict at hp
  split at hp
  · obtain ⟨q, hq, hqe⟩ := List.mem_map.mp hp
    by_cases h : (q.1 == k) = true
    · rw [if_pos h] at hqe
      exact Or.inr hqe.symm
    · rw [if_neg h] at hqe
      exact Or.inl (hqe ▸ hq)
  · rcases List.mem_append.mp hp with h | h
    · exact Or.inl h
    · exact Or.inr (List.mem_singleton.mp h)

theorem buildDict_go_entries (l : List String) (P : String → Prop) :
    ∀ acc : List (String × String),
      (∀ p ∈ acc, P p.2 ∧ normalize_column_name p.2 = p.1) →
      (∀ c ∈ l, P c) →
      ∀ p ∈ l.foldl (fun d c => insertDict d (normalize_column_name c) c) acc,
        P p.2 ∧ normalize_column_name p.2 = p.1 := by
  induction l with
  | nil =>
    intro acc hacc _ p hp
    exact hacc p hp
  | cons c cs ih =>
    intro acc hacc hl p hp
    refine ih (insertDict acc (normalize_column_name c) c) ?_
      (fun x hx => hl x (List.mem_cons_of_mem _ hx)) p hp
    intro q hq
    rcases insertDict_mem _ _ _ _ hq with h | h
    · exact hacc q h
    · rw [h]
      exact ⟨hl c (List.mem_cons_self _ _), rfl⟩

theorem buildDict_entry_props (cols : List String) :
    ∀ p ∈ buildDict cols, p.2 ∈ cols ∧ normalize_column_name p.2 = p.1 :=
  buildDict_go_entries cols (· ∈ cols) [] (by simp) (fun _ hc => hc)

theorem insertDict_keys_mem (d : List (String × String)) (k v k' : String) :
    (∃ p ∈ insertDict d k v, p.1 = k') ↔ (∃ p ∈ d, p.1 = k') ∨ k = k' := by
  have hfst : ∀ p : String × String, ((if (p.1 == k) = true then (k, v) else p).1) = p.1 := by
    intro p
    by_cases hb : (p.1 == k) = true
    · rw [if_pos hb]
      exact (beq_iff_eq.mp hb).symm
    · rw [if_neg hb]
  unfold insertDict
  by_cases h : d.any (fun p => p.1 == k) = true
  · rw [if_pos h]
    constructor
    · rintro ⟨p, hp, hpk⟩
      obtain ⟨q, hq, hqe⟩ := List.mem_map.mp hp
      exact Or.inl ⟨q, hq, by rw [← hpk, ← hqe, hfst q]⟩
    · rintro (⟨p, hp, hpk⟩ | hk)
      · refine ⟨(if (p.1 == k) = true then (k, v) else p),
          List.mem_map.mpr ⟨p, hp, rfl⟩, ?_⟩
        rw [hfst p, hpk]
      · obtain ⟨p, hp, hpb⟩ := List.any_eq_true.mp h
        refine ⟨(if (p.1 == k) = true then (k, v) else p),
          List.mem_map.mpr ⟨p, hp, rfl⟩, ?_⟩
        rw [hfst p, beq_iff_eq.mp hpb, hk]
  · rw [if_neg h]
    constructor
    · rintro ⟨p, hp, hpk⟩
      rcases List.mem_append.mp hp with hm | hm
      · exact Or.inl ⟨p, hm, hpk⟩
      · rw [List.mem_singleton.mp hm] at hpk
        exact Or.inr hpk
    · rintro (⟨p, hp, hpk⟩ | hk)
      · exact ⟨p, List.mem_append.mpr (Or.inl hp), hpk⟩
      · exact ⟨(k, v), List.mem_append.mpr (Or.inr (List.mem_singleton.mpr rfl)), hk⟩

theorem buildDict_go_keys (l : List String) :
    ∀ (acc : List (String × String)) (k : String),
      (∃ p ∈ l.foldl (fun d c => insertDict d (normalize_column_name c) c) acc, p.1 = k) ↔
        (∃ p ∈ acc, p.1 = k) ∨ ∃ c ∈ l, normalize_column_name c = k := by
  induction l with
  | nil => simp
  | cons c cs ih =>
    intro acc k
    simp only [List.foldl_cons]
    rw [ih, insertDict_keys_mem]
    simp only [List.mem_cons]
    constructor
    · rintro ((h | h) | h)
      · exact Or.inl h
      · exact Or.inr ⟨c, Or.inl rfl, h⟩
      · obtain ⟨x, hx, hxk⟩ := h
        exact Or.inr ⟨x, Or.inr hx, hxk⟩
    · rintro (h | ⟨x, hx | hx, hxk⟩)
      · exact Or.inl (Or.inl h)
      · exact Or.inl (Or.inr (by rw [hx] at hxk; exact hxk))
      · exact Or.inr ⟨x, hx, hxk⟩

theorem buildDict_keys (cols : List String) (k : String) :
    (∃ p ∈ buildDict cols, p.1 = k) ↔ ∃ c ∈ cols, normalize_column_name c = k := by
  have := buildDict_go_keys cols [] k
  simpa [buildDict] using this

theorem dictGet_isSome_of_exists (cols : List String) (k : String)
    (h : ∃ c ∈ cols, normalize_column_name c = k) :
    ∃ v, dictGet (buildDict cols) k = some v := by
  obtain ⟨p, hp, hpk⟩ := (buildDict_keys cols k).mpr h
  have hfs : ((buildDict cols).find? (fun q => q.1 == k)).isSome :=
    List.find?_isSome.mpr ⟨p, hp, by simp [hpk]⟩
  obtain ⟨q, hq⟩ := Option.isSome_iff_exists.mp hfs
  exact ⟨q.2, by simp [dictGet, hq]⟩

theorem dictGet_some_props (cols : List String) (k v : String)
    (h : dictGet (buildDict cols) k = some v) :
    v ∈ cols ∧ normalize_column_name v = k := by
  unfold dictGet at h
  obtain ⟨p, hp, hpv⟩ := Option.map_eq_some'.mp h
  have hmem := List.mem_of_find?_eq_some hp
  have hpb : (p.1 == k) = true := List.find?_some (p := fun q : String × String => q.1 == k) hp
  have hpk : p.1 = k := beq_iff_eq.mp hpb
  have hprops := buildDict_entry_props cols p hmem
  rw [← hpv]
  exact ⟨hprops.1, by rw [hprops.2, hpk]⟩

theorem tier1_first_exact (cols names : List String) (a : String)
    (ha : names.find? (fun x =>
        cols.any (fun c => normalize_column_name c == normalize_column_name x)) = some a) :
    ∃ v, (names.map normalize_column_name).findSome?
          (fun n => dictGet (buildDict cols) n) = some v ∧
      v ∈ cols ∧ normalize_column_name v = normalize_column_name a := by
  induction names with
  | nil => simp at ha
  | cons x xs ih =>
    by_cases hx : cols.any (fun c => normalize_column_name c == normalize_column_name x) = true
    · rw [List.find?_cons_of_pos
        (p := fun y => cols.any (fun c => normalize_column_name c == normalize_column_name y))
        xs hx] at ha
      injection ha with ha
      have hex : ∃ c ∈ cols, normalize_column_name c = normalize_column_name a := by
        obtain ⟨c, hc, hcb⟩ := List.any_eq_true.mp hx
        exact ⟨c, hc, by rw [← ha]; exact beq_iff_eq.mp hcb⟩
      obtain ⟨v, hv⟩ := dictGet_isSome_of_exists cols _ hex
      have hprops := dictGet_some_props cols _ v hv
      refine ⟨v, ?_, hprops.1, hprops.2⟩
      rw [List.map_cons, ha]
      simp only [List.findSome?_cons, hv]
    · rw [List.find?_cons_of_neg
        (p := fun y => cols.any (fun c => normalize_column_name c == normalize_column_name y))
        xs hx] at ha
      obtain ⟨v, hv, hmem, hnorm⟩ := ih ha
      refine ⟨v, ?_, hmem, hnorm⟩
      have hnone : dictGet (buildDict cols) (normalize_column_name x) = none := by
        cases hdg : dictGet (buildDict cols) (normalize_column_name x) with
        | none => rfl
        | some w =>
          have hw := dictGet_some_props cols _ w hdg
          exact absurd (List.any_eq_true.mpr ⟨w, hw.1, by simp [hw.2]⟩) hx
      simp only [List.map_cons, List.findSome?_cons, hnone, hv]

theorem buildDict_go_nodup (l : List String) :
    ∀ acc : List (String × String),
      (∀ c ∈ l, acc.any (fun p => p.1 == normalize_column_name c) = false) →
      (l.map normalize_column_name).Nodup →
      l.foldl (fun d c => insertDict d (normalize_column_name c) c) acc =
        acc ++ l.map (fun c => (normalize_column_name c, c)) := by
  induction l with
  | nil =>
    intro acc _ _
    simp
  | cons c cs ih =>
    intro acc hacc hnd
    rw [List.map_cons] at hnd
    have hnd' := List.nodup_cons.mp hnd
    simp only [List.foldl_cons]
    rw [insertDict_not_mem _ _ _ (hacc c (List.mem_cons_self _ _))]
    rw [ih (acc ++ [(normalize_column_name c, c)]) ?_ hnd'.2]
    · simp
    · intro x hx
      rw [List.any_append]
      have h1 : acc.any (fun p => p.1 == normalize_column_name x) = false :=
        hacc x (List.mem_cons_of_mem _ hx)
      have h2 : (normalize_column_name c == normalize_column_name x) = false := by
        rw [beq_eq_false_iff_ne]
        intro hcx
        apply hnd'.1
        rw [hcx]
        exact List.mem_map_of_mem _ hx
      simp [h1, h2]

theorem buildDict_eq_map (cols : List String)
    (h : (cols.map normalize_column_name).Nodup) :
    buildDict cols = cols.map (fun c => (normalize_column_name c, c)) := by
  have hgo := buildDict_go_nodup cols [] (fun c _ => rfl) h
  simpa [buildDict] using hgo

theorem dictGet_map_pair (cols : List String) (k : String) :
    dictGet (cols.map (fun c => (normalize_column_name c, c))) k =
      cols.find? (fun c => normalize_column_name c == k) := by
  induction cols with
  | nil => rfl
  | cons c cs ih =>
    by_cases h : (normalize_column_name c == k) = true
    · simp only [List.map_cons, dictGet]
      rw [List.find?_cons_of_pos (p := fun q : String × String => q.1 == k) _
            (by simpa using h),
          List.find?_cons_of_pos (p := fun c => normalize_column_name c == k) _ h]
      rfl
    · simp only [List.map_cons, dictGet]
      rw [List.find?_cons_of_neg (p := fun q : String × String => q.1 == k) _
            (by simpa using h),
          List.find?_cons_of_neg (p := fun c => normalize_column_name c == k) _ h]
      exact ih

-- ## Lemmas about the row loop

theorem composeRow_raises (fc : List (String × String)) (row : Row)
    (today_date : String) (hasBreak : Bool) :
    composeRow fc row today_date hasBreak =
      Except.error (GenError.nameError "col_widths_combined") := by
  simp only [composeRow]
  rw [if_neg (by decide : ¬ ("col_widths_combined" ∈ loopDefinedNames))]

theorem composeRows_raises (fc : List (String × String)) (today_date : String)
    (n i : Nat) (r : Row) (rs : List Row) :
    composeRows fc today_date n i (r :: rs) =
      Except.error (GenError.nameError "col_widths_combined") := by
  simp only [composeRows, composeRow_raises]

-- ## Lemmas about the extraction of lines 296-303

theorem requiredField_resolved (fc : List (String × String)) (row : Row)
    (key col s : String) (h1 : lookupFound fc key = some col)
    (h2 : rowGet row col = PCell.s s) : requiredField fc row key = s := by
  simp [requiredField, h1, h2, cellStr]

theorem requiredField_absent (fc : List (String × String)) (row : Row)
    (key : String) (h : lookupFound fc key = none) :
    requiredField fc row key = "N/A" := by
  simp [requiredField, h]

theorem requiredField_nan (fc : List (String × String)) (row : Row)
    (key col : String) (h1 : lookupFound fc key = some col)
    (h2 : rowGet row col = PCell.nan) : requiredField fc row key = "nan" := by
  simp [requiredField, h1, h2, cellStr]

theorem optionalField_resolved (fc : List (String × String)) (row : Row)
    (key col s : String) (h1 : lookupFound fc key = some col)
    (h2 : rowGet row col = PCell.s s) : optionalField fc row key = s := by
  simp [optionalField, h1, h2, notna, cellStr]

theorem optionalField_nan (fc : List (String × String)) (row : Row)
    (key col : String) (h1 : lookupFound fc key = some col)
    (h2 : rowGet row col = PCell.nan) : optionalField fc row key = "" := by
  simp [optionalField, h1, h2, notna]

theorem optionalField_absent (fc : List (String × String)) (row : Row)
    (key : String) (h : lookupFound fc key = none) :
    optionalField fc row key = "" := by
  simp [optionalField, h]

-- ## Claim theorems

/-- C9: parse_line_location always returns exactly 4 segments; empty input
yields four empty strings; the listed examples split on the literal
underscore, pad short inputs on the right with empty strings, truncate
long inputs to 4 parts, and perform no whitespace trimming. -/
theorem parse_line_location_contract :
    (∀ s : String, (parse_line_location s).length = 4) ∧
    parse_line_location "A_B_C_D" = ["A", "B", "C", "D"] ∧
    parse_line_location "A_B" = ["A", "B", "", ""] ∧
    parse_line_location "A_B_C_D_E" = ["A", "B", "C", "D"] ∧
    parse_line_location "" = ["", "", "", ""] ∧
    parse_line_location " A _ B" = [" A ", " B", "", ""] := by
  refine ⟨?_, by decide, by decide, by decide, by decide, by decide⟩
  intro s
  unfold parse_line_location
  split
  · rfl
  · simp only [List.length_take, List.length_append, List.length_replicate]
    omega

/-- C10: with every logical field resolved and every cell a float NaN, the
three required fields extract to the string nan (plain str conversion of a
float NaN, no pd.notna guard on lines 296-298) while all five optional
fields extract to the empty string (the pd.notna guard on lines 299-303). -/
theorem nan_required_optional_asymmetry
    (fc : List (String × String)) (row : Row)
    (cA cP cD cQ cT cL cS cB : String)
    (hA : lookupFound fc "ASSLY" = some cA) (hAn : rowGet row cA = PCell.nan)
    (hP : lookupFound fc "part_no" = some cP) (hPn : rowGet row cP = PCell.nan)
    (hD : lookupFound fc "description" = some cD) (hDn : rowGet row cD = PCell.nan)
    (hQ : lookupFound fc "Part_per_veh" = some cQ) (hQn : rowGet row cQ = PCell.nan)
    (hT : lookupFound fc "Type" = some cT) (hTn : rowGet row cT = PCell.nan)
    (hL : lookupFound fc "line_location" = some cL) (hLn : rowGet row cL = PCell.nan)
    (hS : lookupFound fc "part_status" = some cS) (hSn : rowGet row cS = PCell.nan)
    (hB : lookupFound fc "bin_type" = some cB) (hBn : rowGet row cB = PCell.nan) :
    (extractRow fc row).ASSLY = "nan" ∧ (extractRow fc row).part_no = "nan" ∧
    (extractRow fc row).desc = "nan" ∧ (extractRow fc row).Part_per_veh = "" ∧
    (extractRow fc row).Type_ = "" ∧ (extractRow fc row).line_location_raw = "" ∧
    (extractRow fc row).part_status = "" ∧ (extractRow fc row).bin_type = "" :=
  ⟨requiredField_nan fc row "ASSLY" cA hA hAn,
   requiredField_nan fc row "part_no" cP hP hPn,
   requiredField_nan fc row "description" cD hD hDn,
   optionalField_nan fc row "Part_per_veh" cQ hQ hQn,
   optionalField_nan fc row "Type" cT hT hTn,
   optionalField_nan fc row "line_location" cL hL hLn,
   optionalField_nan fc row "part_status" cS hS hSn,
   optionalField_nan fc row "bin_type" cB hB hBn⟩

/-- C10 witness: concrete resolved schema and an all-NaN row. -/
theorem nan_required_optional_asymmetry_witness :
    (extractRow
      [("ASSLY", "a"), ("part_no", "p"), ("description", "d"), ("Part_per_veh", "q"),
       ("Type", "t"), ("line_location", "l"), ("part_status", "s"), ("bin_type", "b")]
      [("a", PCell.nan), ("p", PCell.nan), ("d", PCell.nan), ("q", PCell.nan),
       ("t", PCell.nan), ("l", PCell.nan), ("s", PCell.nan), ("b", PCell.nan)]).ASSLY = "nan" ∧
    (extractRow
      [("ASSLY", "a"), ("part_no", "p"), ("description", "d"), ("Part_per_veh", "q"),
       ("Type", "t"), ("line_location", "l"), ("part_status", "s"), ("bin_type", "b")]
      [("a", PCell.nan), ("p", PCell.nan), ("d", PCell.nan), ("q", PCell.nan),
       ("t", PCell.nan), ("l", PCell.nan), ("s", PCell.nan), ("b", PCell.nan)]).part_no = "nan" ∧
    (extractRow
      [("ASSLY", "a"), ("part_no", "p"), ("description", "d"), ("Part_per_veh", "q"),
       ("Type", "t"), ("line_location", "l"), ("part_status", "s"), ("bin_type", "b")]
      [("a", PCell.nan), ("p", PCell.nan), ("d", PCell.nan), ("q", PCell.nan),
       ("t", PCell.nan), ("l", PCell.nan), ("s", PCell.nan), ("b", PCell.nan)]).desc = "nan" ∧
    (extractRow
      [("ASSLY", "a"), ("part_no", "p"), ("description", "d"), ("Part_per_veh", "q"),
       ("Type", "t"), ("line_location", "l"), ("part_status", "s"), ("bin_type", "b")]
      [("a", PCell.nan), ("p", PCell.nan), ("d", PCell.nan), ("q", PCell.nan),
       ("t", PCell.nan), ("l", PCell.nan), ("s", PCell.nan), ("b", PCell.nan)]).Part_per_veh = "" ∧
    (extractRow
      [("ASSLY", "a"), ("part_no", "p"), ("description", "d"), ("Part_per_veh", "q"),
       ("Type", "t"), ("line_location", "l"), ("part_status", "s"), ("bin_type", "b")]
      [("a", PCell.nan), ("p", PCell.nan), ("d", PCell.nan), ("q", PCell.nan),
       ("t", PCell.nan), ("l", PCell.nan), ("s", PCell.nan), ("b", PCell.nan)]).Type_ = "" ∧
    (extractRow
      [("ASSLY", "a"), ("part_no", "p"), ("description", "d"), ("Part_per_veh", "q"),
       ("Type", "t"), ("line_location", "l"), ("part_status", "s"), ("bin_type", "b")]
      [("a", PCell.nan), ("p", PCell.nan), ("d", PCell.nan), ("q", PCell.nan),
       ("t", PCell.nan), ("l", PCell.nan), ("s", PCell.nan), ("b", PCell.nan)]).line_location_raw = "" ∧
    (extractRow
      [("ASSLY", "a"), ("part_no", "p"), ("description", "d"), ("Part_per_veh", "q"),
       ("Type", "t"), ("line_location", "l"), ("part_status", "s"), ("bin_type", "b")]
      [("a", PCell.nan), ("p", PCell.nan), ("d", PCell.nan), ("q", PCell.nan),
       ("t", PCell.nan), ("l", PCell.nan), ("s", PCell.nan), ("b", PCell.nan)]).part_status = "" ∧
    (extractRow
      [("ASSLY", "a"), ("part_no", "p"), ("description", "d"), ("Part_per_veh", "q"),
       ("Type", "t"), ("line_location", "l"), ("part_status", "s"), ("bin_type", "b")]
      [("a", PCell.nan), ("p", PCell.nan), ("d", PCell.nan), ("q", PCell.nan),
       ("t", PCell.nan), ("l", PCell.nan), ("s", PCell.nan), ("b", PCell.nan)]).bin_type = "" :=
  nan_required_optional_asymmetry _ _ "a" "p" "d" "q" "t" "l" "s" "b"
    rfl rfl rfl rfl rfl rfl rfl rfl rfl rfl rfl rfl rfl rfl rfl rfl

/-- C8 counterexample: a resolved optional column whose cell carries
surrounding whitespace is stored verbatim, so the stored LabelData value
is not a trimmed string. -/
theorem labeldata_untrimmed_cex :
    (extractRow [("Type", "T")] [("T", PCell.s " X ")]).Type_ = " X " ∧
    noOuterWhitespace ((extractRow [("Type", "T")] [("T", PCell.s " X ")]).Type_) = false := by
  exact ⟨rfl, rfl⟩

/-- C8 amended: every LabelData field is the plain (untrimmed) string
conversion of its source cell; NaN optional cells give the empty string;
required fields give the sentinel N/A exactly when their schema entry is
absent, while a resolved required cell is stored as converted, even when
blank. -/
theorem extract_field_value_policy (fc : List (String × String)) (row : Row) :
    (∀ col s, lookupFound fc "ASSLY" = some col → rowGet row col = PCell.s s →
      (extractRow fc row).ASSLY = s) ∧
    (lookupFound fc "ASSLY" = none → (extractRow fc row).ASSLY = "N/A") ∧
    (∀ col s, lookupFound fc "part_no" = some col → rowGet row col = PCell.s s →
      (extractRow fc row).part_no = s) ∧
    (lookupFound fc "part_no" = none → (extractRow fc row).part_no = "N/A") ∧
    (∀ col s, lookupFound fc "description" = some col → rowGet row col = PCell.s s →
      (extractRow fc row).desc = s) ∧
    (lookupFound fc "description" = none → (extractRow fc row).desc = "N/A") ∧
    (∀ col s, lookupFound fc "Part_per_veh" = some col → rowGet row col = PCell.s s →
      (extractRow fc row).Part_per_veh = s) ∧
    (∀ col, lookupFound fc "Part_per_veh" = some col → rowGet row col = PCell.nan →
      (extractRow fc row).Part_per_veh = "") ∧
    (lookupFound fc "Part_per_veh" = none → (extractRow fc row).Part_per_veh = "") ∧
    (∀ col s, lookupFound fc "Type" = some col → rowGet row col = PCell.s s →
      (extractRow fc row).Type_ = s) ∧
    (∀ col, lookupFound fc "Type" = some col → rowGet row col = PCell.nan →
      (extractRow fc row).Type_ = "") ∧
    (lookupFound fc "Type" = none → (extractRow fc row).Type_ = "") ∧
    (∀ col s, lookupFound fc "line_location" = some col → rowGet row col = PCell.s s →
      (extractRow fc row).line_location_raw = s) ∧
    (∀ col, lookupFound fc "line_location" = some col → rowGet row col = PCell.nan →
      (extractRow fc row).line_location_raw = "") ∧
    (lookupFound fc "line_location" = none → (extractRow fc row).line_location_raw = "") ∧
    (∀ col s, lookupFound fc "part_status" = some col → rowGet row col = PCell.s s →
      (extractRow fc row).part_status = s) ∧
    (∀ col, lookupFound fc "part_status" = some col → rowGet row col = PCell.nan →
      (extractRow fc row).part_status = "") ∧
    (lookupFound fc "part_status" = none → (extractRow fc row).part_status = "") ∧
    (∀ col s, lookupFound fc "bin_type" = some col → rowGet row col = PCell.s s →
      (extractRow fc row).bin_type = s) ∧
    (∀ col, lookupFound fc "bin_type" = some col → rowGet row col = PCell.nan →
      (extractRow fc row).bin_type = "") ∧
    (lookupFound fc "bin_type" = none → (extractRow fc row).bin_type = "") :=
  ⟨fun col s h1 h2 => requiredField_resolved fc row "ASSLY" col s h1 h2,
   fun h => requiredField_absent fc row "ASSLY" h,
   fun col s h1 h2 => requiredField_resolved fc row "part_no" col s h1 h2,
   fun h => requiredField_absent fc row "part_no" h,
   fun col s h1 h2 => requiredField_resolved fc row "description" col s h1 h2,
   fun h => requiredField_absent fc row "description" h,
   fun col s h1 h2 => optionalField_resolved fc row "Part_per_veh" col s h1 h2,
   fun col h1 h2 => optionalField_nan fc row "Part_per_veh" col h1 h2,
   fun h => optionalField_absent fc row "Part_per_veh" h,
   fun col s h1 h2 => optionalField_resolved fc row "Type" col s h1 h2,
   fun col h1 h2 => optionalField_nan fc row "Type" col h1 h2,
   fun h => optionalField_absent fc row "Type" h,
   fun col s h1 h2 => optionalField_resolved fc row "line_location" col s h1 h2,
   fun col h1 h2 => optionalField_nan fc row "line_location" col h1 h2,
   fun h => optionalField_absent fc row "line_location" h,
   fun col s h1 h2 => optionalField_resolved fc row "part_status" col s h1 h2,
   fun col h1 h2 => optionalField_nan fc row "part_status" col h1 h2,
   fun h => optionalField_absent fc row "part_status" h,
   fun col s h1 h2 => optionalField_resolved fc row "bin_type" col s h1 h2,
   fun col h1 h2 => optionalField_nan fc row "bin_type" col h1 h2,
   fun h => optionalField_absent fc row "bin_type" h⟩

/-- C8 amended witness: an untrimmed required value is stored verbatim, a
blank resolved required cell stays blank rather than becoming N/A, a NaN
optional cell becomes empty, and an unresolved optional field is empty. -/
theorem extract_field_value_policy_witness :
    (extractRow [("ASSLY", "a"), ("description", "d"), ("Type", "t")]
      [("a", PCell.s " A "), ("d", PCell.s ""), ("t", PCell.nan)]).ASSLY = " A " ∧
    (extractRow [("ASSLY", "a"), ("description", "d"), ("Type", "t")]
      [("a", PCell.s " A "), ("d", PCell.s ""), ("t", PCell.nan)]).desc = "" ∧
    (extractRow [("ASSLY", "a"), ("description", "d"), ("Type", "t")]
      [("a", PCell.s " A "), ("d", PCell.s ""), ("t", PCell.nan)]).Type_ = "" ∧
    (extractRow [("ASSLY", "a"), ("description", "d"), ("Type", "t")]
      [("a", PCell.s " A "), ("d", PCell.s ""), ("t", PCell.nan)]).bin_type = "" := by
  obtain ⟨p1, _, _, _, p5, _, _, _, _, _, p11, _, _, _, _, _, _, _, _, _, p21⟩ :=
    extract_field_value_policy [("ASSLY", "a"), ("description", "d"), ("Type", "t")]
      [("a", PCell.s " A "), ("d", PCell.s ""), ("t", PCell.nan)]
  exact ⟨p1 "a" " A " rfl rfl, p5 "d" "" rfl rfl, p11 "t" rfl rfl, p21 rfl⟩

/-- C1 counterexample: for the Assembly value ABCDE the claimed rendering
is the plain main AB followed by a bold suffix CDE, but the identity panel
of line 345 puts the whole value in one Paragraph with the non-bold
ASSLY_style, so its rendered runs are the single plain run ABCDE. -/
theorem identity_panel_unsplit_cex :
    identitySplitSpec "ABCDE" = ("AB", "CDE") ∧
    cellRuns ((assly_row (TCell.str "") "ABCDE").getD 2 (TCell.str "")) =
      [("ABCDE", false)] ∧
    cellRuns ((assly_row (TCell.str "") "ABCDE").getD 2 (TCell.str "")) ≠
      identityRunsClaim "ABCDE" := by
  refine ⟨by decide, by decide, by decide⟩

/-- C1 amended: the identity panel renders the Assembly value whole, as a
single non-bold run, with no main/suffix split and no emphasis on the
last three characters. -/
theorem identity_panel_renders_whole_assembly (first_box_content : TCell) (ASSLY : String)
    (h : textIsBoldWrapped ASSLY = false) :
    cellRuns ((assly_row first_box_content ASSLY).getD 2 (TCell.str "")) =
      [(ASSLY, false)] := by
  have hfont : ("Helvetica" == "Helvetica-Bold") = false := by decide
  simp [assly_row, cellRuns, paraRuns, h, hfont]

/-- C1 amended witness. -/
theorem identity_panel_renders_whole_assembly_witness :
    cellRuns ((assly_row (TCell.str "") "AX-100-123").getD 2 (TCell.str "")) =
      [("AX-100-123", false)] :=
  identity_panel_renders_whole_assembly (TCell.str "") "AX-100-123" (by decide)

/-- C5: the QR payload of lines 307-318 is exactly the newline join of
the line list: ASSLY, Part No, Description always; then QTY/VEH, Bin
Type, Type, Part Status, Line Location each present exactly when the
corresponding field is non-empty; Date always last. -/
theorem qr_payload_line_structure (d : LabelData) (today_date : String) :
    build_qr_data d today_date = joinLines (qrPayloadLines d today_date) := by
  simp only [build_qr_data, qrPayloadLines]
  by_cases h1 : d.Part_per_veh = "" <;> by_cases h2 : d.bin_type = "" <;>
    by_cases h3 : d.Type_ = "" <;> by_cases h4 : d.part_status = "" <;>
    by_cases h5 : d.line_location_raw = "" <;>
    simp [h1, h2, h3, h4, h5, joinLines, ← String.append_assoc]

/-- C4 counterexample: for the Type field, on a table whose only column is
Line Location, the exact and substring tiers both fail yet find_column
still resolves the field through the keyword scan, because that scan runs
inside find_column for every logical field rather than only for
line_location. -/
theorem keyword_tier_applies_to_type_field_cex :
    find_column ["Line Location"] column_mappings_Type = some "Line Location" ∧
    exactTierMatch ["Line Location"] column_mappings_Type = none ∧
    substringTierMatch ["Line Location"] column_mappings_Type = none := by
  refine ⟨by decide, by decide, by decide⟩

/-- C4 amended: for every alias list (hence for every logical field, not
only LineLocation) and every table whose column names have pairwise
distinct canonical forms, find_column is the ordered fallthrough of the
exact tier, the substring tier, and the line-location keyword tier. -/
theorem find_column_three_tier_characterization (dfColumns possible_names : List String)
    (h : (dfColumns.map normalize_column_name).Nodup) :
    find_column dfColumns possible_names =
      (exactTierMatch dfColumns possible_names <|>
        (substringTierMatch dfColumns possible_names <|> keywordTierMatch dfColumns)) := by
  have hb := buildDict_eq_map dfColumns h
  simp only [find_column, hb, dictGet_map_pair, List.findSome?_map, Function.comp_def]
  simp only [exactTierMatch, substringTierMatch, keywordTierMatch]
  split
  · rename_i c heq
    rw [heq]
    rfl
  · rename_i heq
    rw [heq]
    split
    · rename_i c heq2
      rw [heq2]
      rfl
    · rename_i heq2
      rw [heq2]
      rfl

/-- C4 amended witness. -/
theorem find_column_three_tier_characterization_witness :
    find_column ["Foo", "Line Location"] column_mappings_Type =
      (exactTierMatch ["Foo", "Line Location"] column_mappings_Type <|>
        (substringTierMatch ["Foo", "Line Location"] column_mappings_Type <|>
          keywordTierMatch ["Foo", "Line Location"])) :=
  find_column_three_tier_characterization ["Foo", "Line Location"] column_mappings_Type
    (by decide)

/-- C6: whenever some alias has an exact canonical match among the table
columns, find_column resolves through the exact tier: it returns a column
of the table whose canonical form equals the canonical form of the first
alias, in declared priority order, having an exact match. -/
theorem exact_tier_priority (dfColumns possible_names : List String) (a : String)
    (ha : possible_names.find? (fun x =>
        dfColumns.any (fun c => normalize_column_name c == normalize_column_name x)) =
      some a) :
    ∃ v, find_column dfColumns possible_names = some v ∧ v ∈ dfColumns ∧
      normalize_column_name v = normalize_column_name a := by
  obtain ⟨v, hv, hmem, hnorm⟩ := tier1_first_exact dfColumns possible_names a ha
  refine ⟨v, ?_, hmem, hnorm⟩
  simp only [find_column, hv]

/-- C6 witness: with columns Part Description and DESCRIPTION, the first
exactly matching description alias is DESCRIPTION, and the exact tier
wins even though the substring tier would have matched Part Description
first. -/
theorem exact_tier_priority_witness :
    ∃ v, find_column ["Part Description", "DESCRIPTION"] column_mappings_description =
        some v ∧
      v ∈ ["Part Description", "DESCRIPTION"] ∧
      normalize_column_name v = normalize_column_name "DESCRIPTION" :=
  exact_tier_priority ["Part Description", "DESCRIPTION"] column_mappings_description
    "DESCRIPTION" (by decide)

/-- C2: for every table with at least one row whose three required logical
fields all resolve, generate_sticker_labels reaches the row loop, the
first iteration evaluates the unbound name col_widths_combined (line 400),
the NameError is caught by the handler of line 545, and the function
returns the failure pair (None, None); no document is produced. -/
theorem nonempty_table_generation_fails (df : DataFrame) (today_date : String)
    (hrows : df.rows ≠ [])
    (hreq : required_columns.filter
        (fun c => (lookupFound (found_columns df.cols) c).isNone) = []) :
    generate_sticker_labels df today_date =
      Except.error (GenError.nameError "col_widths_combined") ∧
    genReturn (generate_sticker_labels df today_date) = (none, none) := by
  have h1 : generate_sticker_labels df today_date =
      Except.error (GenError.nameError "col_widths_combined") := by
    simp only [generate_sticker_labels]
    rw [if_pos hreq]
    cases hr : df.rows with
    | nil => exact absurd hr hrows
    | cons r rs => rw [composeRows_raises]
  exact ⟨h1, by rw [h1]; rfl⟩

/-- C2 witness: a one-row table with matching Assembly, part number and
description columns still yields the failure pair. -/
theorem nonempty_table_generation_fails_witness :
    generate_sticker_labels
        (DataFrame.mk ["Assembly", "PARTNO", "DESCRIPTION"]
          [[("Assembly", PCell.s "AX-100-123"), ("PARTNO", PCell.s "PN-998"),
            ("DESCRIPTION", PCell.s "Bracket")]]) "01-01-2026" =
      Except.error (GenError.nameError "col_widths_combined") ∧
    genReturn (generate_sticker_labels
        (DataFrame.mk ["Assembly", "PARTNO", "DESCRIPTION"]
          [[("Assembly", PCell.s "AX-100-123"), ("PARTNO", PCell.s "PN-998"),
            ("DESCRIPTION", PCell.s "Bracket")]]) "01-01-2026") = (none, none) :=
  nonempty_table_generation_fails
    (DataFrame.mk ["Assembly", "PARTNO", "DESCRIPTION"]
      [[("Assembly", PCell.s "AX-100-123"), ("PARTNO", PCell.s "PN-998"),
        ("DESCRIPTION", PCell.s "Bracket")]]) "01-01-2026"
    (by decide) (by decide)

/-- C7: when any required logical field fails to resolve, generation stops
before any per-row processing with an error that carries the list of
missing logical fields, and the caller receives the failure pair
(None, None); no document, not even a partial one, is produced. -/
theorem missing_required_hard_failure (df : DataFrame) (today_date : String)
    (h : required_columns.filter
        (fun c => (lookupFound (found_columns df.cols) c).isNone) ≠ []) :
    generate_sticker_labels df today_date =
      Except.error (GenError.missingRequired
        (required_columns.filter
          (fun c => (lookupFound (found_columns df.cols) c).isNone))) ∧
    genReturn (generate_sticker_labels df today_date) = (none, none) := by
  have h1 : generate_sticker_labels df today_date =
      Except.error (GenError.missingRequired
        (required_columns.filter
          (fun c => (lookupFound (found_columns df.cols) c).isNone))) := by
    simp only [generate_sticker_labels]
    rw [if_neg h]
  exact ⟨h1, by rw [h1]; rfl⟩

/-- C7 witness: a table with no description-like column fails naming
description as the missing field. -/
theorem missing_required_hard_failure_witness :
    generate_sticker_labels (DataFrame.mk ["Assembly", "PARTNO"] []) "x" =
      Except.error (GenError.missingRequired ["description"]) ∧
    genReturn (generate_sticker_labels (DataFrame.mk ["Assembly", "PARTNO"] []) "x") =
      (none, none) := by
  have h := missing_required_hard_failure (DataFrame.mk ["Assembly", "PARTNO"] []) "x"
    (by decide)
  exact ⟨by rw [h.1]; rfl, h.2⟩

/-- C3 evaluation at a failing input: a two-row table with resolvable
required columns, which the claim says must become a two-page document
with one page break, instead makes generate_sticker_labels return the
failure pair, because the row loop dies on the unbound name
col_widths_combined before any descriptor reaches the document. -/
theorem pagination_failing_input_eval :
    genReturn (generate_sticker_labels
        (DataFrame.mk ["ASSY NAME", "Part No", "Description"]
          [[("ASSY NAME", PCell.s "A1"), ("Part No", PCell.s "P1"),
            ("Description", PCell.s "D1")],
           [("ASSY NAME", PCell.s "A2"), ("Part No", PCell.s "P2"),
            ("Description", PCell.s "D2")]]) "02-02-2026") = (none, none) := rfl
